import Mathlib

/-!
Verification of the resilient browser-driven extraction engine of the
google-shopping-scraper repository, as a shallow embedding of
`src/google_shopping_scraper/scraper.py`.

The embedding covers:
* the per-field extraction logic of `_get_data_from_item_div`;
* the incremental collector `_smart_scroll_and_extract` together with the
  zero-items fallback pass of `_get_items_for_query`;
* the retry loop of `get_shopping_data_for_query`, including the distinction
  between Python `Exception` and `BaseException` subclasses (the scraper's
  three error classes all derive from `BaseException` directly, so the
  `except Exception` handlers of the retry loop do not catch them);
* the session teardown `close_browser`.

Browser interaction is modelled by explicit environments: a DOM container is
a record of the values the fixed selectors would return, the scroll loop
reads a per-iteration snapshot of the page, and each retry attempt's outcome
is supplied by an environment function.
-/

namespace GoogleShopping

/-- Scan for an occurrence of `needle` at any position of the character
list. -/
def containsSubAux (needle : List Char) : List Char → Bool
  | [] => needle.isEmpty
  | c :: rest => needle.isPrefixOf (c :: rest) || containsSubAux needle rest

/-- Substring containment, modelling Python's `needle in hay`. -/
def containsSub (hay needle : String) : Bool :=
  containsSubAux needle.data hay.data

/-- Python `str.strip`: drop whitespace from both ends.  (Implemented over
the character list so that it reduces inside the kernel; `bool(s)` for a
Python string is modelled as `s ≠ ""`.) -/
def pyStrip (s : String) : String :=
  String.mk (((s.data.dropWhile Char.isWhitespace).reverse.dropWhile
    Char.isWhitespace).reverse)

/-- Python `str.lower` (ASCII case folding, which covers every string the
scraper lowercases). -/
def pyLower (s : String) : String :=
  String.mk (s.data.map Char.toLower)

/-- Python `str.startswith`. -/
def pyStartsWith (s pre : String) : Bool :=
  pre.data.isPrefixOf s.data

/-- Python `str.isdigit` restricted to ASCII digits: true iff the string is
non-empty and every character is a digit. -/
def pyIsDigit (s : String) : Bool :=
  !s.data.isEmpty && s.data.all Char.isDigit

/-- Python `s.replace(".", "")`: remove every dot character. -/
def stripDots (s : String) : String :=
  String.mk (s.data.filter fun c => c != '.')

/-- The currency-symbol class of the regex `[₹$€£¥]\s*[\d,]+\.?\d*` used on
the price element's aria-label in `_get_data_from_item_div`. -/
def isCurrencySymbol (c : Char) : Bool :=
  c = '₹' || c = '$' || c = '€' || c = '£' || c = '¥'

/-- The part of the aria-label regex after the currency symbol:
`\s*[\d,]+\.?\d*` (greedy, no backtracking is ever needed because the
optional tail can match the empty string).  Returns the matched characters,
or `none` when no digit-or-comma follows the optional whitespace. -/
def matchAmountAfterSymbol (cs : List Char) : Option (List Char) :=
  let ws := cs.takeWhile Char.isWhitespace
  let rest := cs.drop ws.length
  let dc := rest.takeWhile fun c => c.isDigit || c = ','
  if dc.isEmpty then none
  else
    let rest2 := rest.drop dc.length
    let tail :=
      match rest2 with
      | '.' :: r3 => '.' :: r3.takeWhile Char.isDigit
      | _ => []
    some (ws ++ dc ++ tail)

/-- Leftmost match of `[₹$€£¥]\s*[\d,]+\.?\d*` over a character list, as
`re.search` computes it: the first position holding a currency symbol from
which the rest of the pattern matches. -/
def currencySearch : List Char → Option (List Char)
  | [] => none
  | c :: rest =>
    if isCurrencySymbol c then
      match matchAmountAfterSymbol rest with
      | some m => some (c :: m)
      | none => currencySearch rest
    else currencySearch rest

/-- `re.search(r'[₹$€£¥]\s*[\d,]+\.?\d*', s)` followed by `.group()`. -/
def priceRegexSearch (s : String) : Option String :=
  (currencySearch s.data).map fun cs => String.mk cs

/-- One `img` element as seen by the extractor: its `src` and `data-src`
attributes (`none` models `get_attribute` returning `None`). -/
structure ImgElem where
  src : Option String
  dataSrc : Option String
deriving Repr, DecidableEq

/-- A candidate product container, reduced to the values the fixed selectors
of `_get_data_from_item_div` would produce on it:
* `titleText`: text of the first `.gkQHve.SsM98d.RmEs5b` match, `none` when
  the selector raises (no element);
* `priceText` / `priceAriaLabel`: text and aria-label of the first `.lmQWe`
  match, `none` for `priceText` when the selector raises;
* the three image scopes of strategies 1-3 (inside the container, in sibling
  subtrees, inside the immediate parent), in the order the code extends
  `all_imgs`;
* `deliveryText`: text of the first `.ybnj7e` match, `none` when absent;
* `reviewText`: text of the first `.yi40Hd` match, `none` when absent;
* `linkHref`: href of the first `a[href]` match, `none` when absent. -/
structure ItemDiv where
  titleText : Option String
  priceText : Option String
  priceAriaLabel : Option String
  imgsInContainer : List ImgElem
  imgsInSiblings : List ImgElem
  imgsInParent : List ImgElem
  deliveryText : Option String
  reviewText : Option String
  linkHref : Option String
deriving Repr, DecidableEq

/-- The output record, from `models.py` (`ShoppingItem`). -/
structure ShoppingItem where
  title : String
  price : String
  delivery_price : String
  review : Option String
  url : String
  image_url : Option String
  saved_image_path : Option String
deriving Repr, DecidableEq

/-- `all_imgs` accumulated by the three gathering strategies, in order. -/
def imgCandidates (d : ItemDiv) : List ImgElem :=
  d.imgsInContainer ++ d.imgsInSiblings ++ d.imgsInParent

/-- Priority 1 guard: `src and src.startswith("data:image/")`. -/
def srcIsData (i : ImgElem) : Bool :=
  match i.src with
  | some s => pyStartsWith s "data:image/"
  | none => false

/-- Priority 2 guard: `src and "encrypted-tbn" in src and "shopping?q=tbn:" in src`. -/
def srcIsEncryptedShopping (i : ImgElem) : Bool :=
  match i.src with
  | some s => containsSub s "encrypted-tbn" && containsSub s "shopping?q=tbn:"
  | none => false

/-- Priority 3 loop: for each image in order, first try `src`, then the
lazy-load `data-src`, each against the `encrypted-tbn` substring test,
stopping at the first hit. -/
def findTbn : List ImgElem → Option String
  | [] => none
  | i :: rest =>
    if (match i.src with | some s => containsSub s "encrypted-tbn" | none => false) then
      i.src
    else if (match i.dataSrc with | some s => containsSub s "encrypted-tbn" | none => false) then
      i.dataSrc
    else
      findTbn rest

/-- Priority 4 guard: `src and src.startswith("http") and not any(x in
src.lower() for x in ["favicon", "icon", "logo"])`. -/
def srcIsHttpNonIcon (i : ImgElem) : Bool :=
  match i.src with
  | some s =>
    pyStartsWith s "http" &&
      !(containsSub (pyLower s) "favicon" || containsSub (pyLower s) "icon" ||
        containsSub (pyLower s) "logo")
  | none => false

/-- The image-URL selection of `_get_data_from_item_div`: four sequential
first-match passes over the candidate list, each pass only consulted when
every earlier pass found nothing. -/
def chooseImageUrl (imgs : List ImgElem) : Option String :=
  match imgs.find? srcIsData with
  | some i => i.src
  | none =>
    match imgs.find? srcIsEncryptedShopping with
    | some i => i.src
    | none =>
      match findTbn imgs with
      | some s => some s
      | none =>
        match imgs.find? srcIsHttpNonIcon with
        | some i => i.src
        | none => none

/-- Price extraction: prefer the trimmed text of the `.lmQWe` element; when
that is empty, consult the aria-label, which must contain `"price"`
case-insensitively before the currency regex is searched in it.  `none`
models `price` remaining `None` (the container is then rejected). -/
def extractPrice (d : ItemDiv) : Option String :=
  match d.priceText with
  | none => none
  | some pt =>
    if pyStrip pt = "" then
      match d.priceAriaLabel with
      | none => none
      | some al =>
        if containsSub (pyLower al) "price" then priceRegexSearch al else none
    else some (pyStrip pt)

/-- Review extraction: the trimmed `.yi40Hd` text is kept only when it is
truthy and `review_text.replace('.', '').isdigit()` holds. -/
def extractReview (d : ItemDiv) : Option String :=
  match d.reviewText with
  | none => none
  | some rt =>
    let t := pyStrip rt
    if t = "" then none
    else if pyIsDigit (stripDots t) then some t
    else none

/-- Delivery extraction: trimmed `.ybnj7e` text, defaulting to `"N/A"`. -/
def extractDelivery (d : ItemDiv) : String :=
  match d.deliveryText with
  | none => "N/A"
  | some t => pyStrip t

/-- URL extraction: href of the first `a[href]`, defaulting to `"N/A"`. -/
def extractUrl (d : ItemDiv) : String :=
  match d.linkHref with
  | none => "N/A"
  | some h => h

/-- `_get_data_from_item_div`: reject (`none`) when the title selector finds
nothing or its trimmed text is empty, or when no price can be obtained;
otherwise build the item with best-effort optional fields and
`saved_image_path = None`. -/
def getDataFromItemDiv (d : ItemDiv) : Option ShoppingItem :=
  match d.titleText with
  | none => none
  | some tt =>
    if pyStrip tt = "" then none
    else
      match extractPrice d with
      | none => none
      | some price =>
        some
          { title := pyStrip tt
            price := price
            delivery_price := extractDelivery d
            review := extractReview d
            url := extractUrl d
            image_url := chooseImageUrl (imgCandidates d)
            saved_image_path := none }

/-- A DOM element as the collector sees it: `elemId` models WebElement
node identity (the fallback's `parent not in items` test compares element
identity), `hasPriceChild` whether `find_element(".lmQWe")` inside it
succeeds, `hveid` its `data-hveid` attribute, `textSnippet` the value
`element.text[:100]`, and `div` the container's extractable fields. -/
structure Elem where
  elemId : Nat
  hasPriceChild : Bool
  hveid : Option String
  textSnippet : String
  div : ItemDiv
deriving Repr, DecidableEq

/-- A title-marker element (`.gkQHve.SsM98d.RmEs5b` match) together with its
chain of ancestors, nearest parent first. -/
structure TitleElem where
  ancestors : List Elem
deriving Repr, DecidableEq

/-- Resolving a title element to its candidate container: ascend at most 5
levels and take the first ancestor containing a price element. -/
def resolveContainer (t : TitleElem) : Option Elem :=
  (t.ancestors.take 5).find? Elem.hasPriceChild

/-- The de-dup key of `_smart_scroll_and_extract`:
`container.get_attribute("data-hveid") or str(hash(container.text[:100]))`.
A missing or empty (falsy) attribute falls back to the hash; the Python
`hash`/`str` composition is an opaque parameter `hashFn` of the model. -/
def containerKey (hashFn : String → String) (c : Elem) : String :=
  match c.hveid with
  | some h => if h = "" then hashFn c.textSnippet else h
  | none => hashFn c.textSnippet

/-- A collected item together with the container it came from.  For the
scroll pass, `containerKey` of the container is exactly the `_container_id`
tag the code attaches to the item; the fallback pass attaches no tag, and
the container is kept purely to state key properties. -/
structure Collected where
  container : Elem
  item : ShoppingItem
deriving Repr, DecidableEq

/-- Keys of the already-collected items, as `processed_ids` computes them. -/
def collectedKeys (hashFn : String → String) (acc : List Collected) : List String :=
  acc.map fun col => containerKey hashFn col.container

/-- The inner loop of `_smart_scroll_and_extract` over the title elements of
the current snapshot: stop at 5 items, resolve each title to a container,
skip already-collected keys, run the field extractor, tag and append. -/
def processTitles (hashFn : String → String) :
    List TitleElem → List Collected → List Collected
  | [], acc => acc
  | t :: rest, acc =>
    if 5 ≤ acc.length then acc
    else
      match resolveContainer t with
      | none => processTitles hashFn rest acc
      | some c =>
        if containerKey hashFn c ∈ collectedKeys hashFn acc then
          processTitles hashFn rest acc
        else
          match getDataFromItemDiv c.div with
          | none => processTitles hashFn rest acc
          | some it => processTitles hashFn rest (acc ++ [⟨c, it⟩])

/-- The environment a scroll run reads from the live page: the title
elements returned by `find_elements` in iteration `k`, the random scroll
amount drawn in iteration `k` (`random.randint(increment - 50,
increment + 50)`), and the document height measured in iteration `k`. -/
structure ScrollEnv where
  titlesAt : Nat → List TitleElem
  scrollDraw : Nat → Nat
  pageHeightAt : Nat → Nat

/-- The while loop of `_smart_scroll_and_extract`: `fuel` counts the scroll
steps still allowed (`max_scrolls - scroll_count`), `k` the iteration index,
`pos` the current scroll position.  The loop stops when 5 items are
collected, when the scroll budget is exhausted, or when the scroll position
reaches the document height. -/
def scrollLoop (env : ScrollEnv) (hashFn : String → String) :
    Nat → Nat → Nat → List Collected → List Collected
  | 0, _, _, acc => acc
  | fuel + 1, k, pos, acc =>
    if 5 ≤ acc.length then acc
    else
      let acc2 := processTitles hashFn (env.titlesAt k) acc
      if 5 ≤ acc2.length then acc2
      else
        let pos2 := pos + env.scrollDraw k
        if env.pageHeightAt k ≤ pos2 then acc2
        else scrollLoop env hashFn fuel (k + 1) pos2 acc2

/-- `_smart_scroll_and_extract`: start at position 0 with `max_scrolls = 10`
and an empty collection. -/
def smartScrollAndExtract (env : ScrollEnv) (hashFn : String → String) :
    List Collected :=
  scrollLoop env hashFn 10 0 0 []

/-- Container gathering of the fallback pass in `_get_items_for_query`:
resolve each title element to its container and append it unless the same
element (by identity) was already gathered. -/
def gatherFallbackContainers (titles : List TitleElem) : List Elem :=
  titles.foldl
    (fun acc t =>
      match resolveContainer t with
      | none => acc
      | some p => if p ∈ acc then acc else acc ++ [p])
    []

/-- Extraction loop of the fallback pass: run the field extractor on each
container in order, appending successes, and stop once 5 items are
reached.  No de-dup key is computed here. -/
def fallbackExtract : List Elem → List Collected → List Collected
  | [], acc => acc
  | c :: rest, acc =>
    let acc2 :=
      match getDataFromItemDiv c.div with
      | none => acc
      | some it => acc ++ [⟨c, it⟩]
    if 5 ≤ acc2.length then acc2
    else fallbackExtract rest acc2

/-- `_get_items_for_query`: the scroll pass, and when it collected nothing,
the fallback pass over a fresh enumeration `fallbackTitles` of the page's
title elements, capped at 15 containers. -/
def getItemsForQuery (env : ScrollEnv) (hashFn : String → String)
    (fallbackTitles : List TitleElem) : List Collected :=
  let fromScroll := smartScrollAndExtract env hashFn
  if fromScroll.isEmpty then
    fallbackExtract ((gatherFallbackContainers fallbackTitles).take 15) []
  else fromScroll

/-- The exceptions relevant to the retry loop.  The three scraper error
classes derive from Python `BaseException` directly, so they are not caught
by `except Exception`; `otherException` stands for any `Exception` subclass
raised by selenium or the runtime, carrying whether `str(type(e))` contains
the substring `"DriverInitializationError"` (no `Exception` subclass in the
program has such a name). -/
inductive Exc where
  | consentFormAcceptError
  | driverInitializationError
  | driverGetShoppingDataError
  | otherException (typeNameHasDriverInit : Bool)
deriving Repr, DecidableEq

/-- Whether `except Exception` catches this exception. -/
def Exc.isExceptionSubclass : Exc → Bool
  | .otherException _ => true
  | _ => false

/-- Whether `"DriverInitializationError" in str(type(e))`. -/
def Exc.nameHasDriverInit : Exc → Bool
  | .driverInitializationError => true
  | .otherException b => b
  | _ => false

/-- What one iteration of the retry loop runs into, supplied by the
environment: `_get_or_create_driver` raising, the Prepare/Collect block
(`_clear_browser_state`, `_click_consent_button`, `_get_items_for_query`)
raising, or the item list the attempt produced. -/
inductive AttemptOutcome where
  | acquireFail (e : Exc)
  | prepareFail (e : Exc)
  | items (xs : List ShoppingItem)
deriving Repr, DecidableEq

/-- The retry loop of `get_shopping_data_for_query` over the remaining
attempts (the list has one entry per remaining iteration of
`range(max_retries)`, so `rest = []` means `attempt = max_retries - 1`).
Returns the outcome together with the number of loop-body iterations
executed; each executed iteration performs exactly one rate-limiting delay
and one session-acquisition call before its outcome happens.
An exhausted (or never entered) loop falls through to
`raise DriverGetShoppingDataError("All retry attempts failed")`. -/
def runAttempts : List AttemptOutcome → Except Exc (List ShoppingItem) × Nat
  | [] => (.error .driverGetShoppingDataError, 0)
  | o :: rest =>
    match o with
    | .acquireFail e =>
      if e.isExceptionSubclass then
        match rest with
        | _ :: _ =>
          let r := runAttempts rest
          (r.1, r.2 + 1)
        | [] =>
          if e.nameHasDriverInit then (.error e, 1)
          else (.error .driverInitializationError, 1)
      else (.error e, 1)
    | .prepareFail e =>
      if e.isExceptionSubclass then
        match rest with
        | _ :: _ =>
          let r := runAttempts rest
          (r.1, r.2 + 1)
        | [] => (.error .driverGetShoppingDataError, 1)
      else (.error e, 1)
    | .items xs =>
      if xs.isEmpty then
        let r := runAttempts rest
        (r.1, r.2 + 1)
      else (.ok xs, 1)

/-- `get_shopping_data_for_query`: run the retry loop over the
`max_retries` attempt outcomes the environment supplies. -/
def getShoppingDataForQuery (env : Nat → AttemptOutcome) (maxRetries : Nat) :
    Except Exc (List ShoppingItem) × Nat :=
  runAttempts ((List.range maxRetries).map env)

/-- The driver configuration fingerprint stored in `_driver_config`; `none`
at the `ScraperState` level models the empty dict. -/
structure DriverConfig where
  proxy : Option String
  headless : Bool
deriving Repr, DecidableEq

/-- The session-owning state of a `GoogleShoppingScraper` instance:
`_driver` (a live browser process handle or `None`) and `_driver_config`. -/
structure ScraperState where
  driver : Option Nat
  driverConfig : Option DriverConfig
deriving Repr, DecidableEq

/-- `close_browser`: when no driver exists, nothing happens; otherwise
`quit()` is attempted inside a try whose except swallows any error
(`quitFails` says whether `quit()` raised), and the finally clears
`_driver` and `_driver_config` in either case. -/
def closeBrowser (quitFails : Bool) (s : ScraperState) : ScraperState :=
  match s.driver with
  | none => s
  | some _ =>
    let _ := quitFails
    { driver := none, driverConfig := none }

/-- A container on which every selector comes up empty. -/
def emptyDiv : ItemDiv :=
  { titleText := none
    priceText := none
    priceAriaLabel := none
    imgsInContainer := []
    imgsInSiblings := []
    imgsInParent := []
    deliveryText := none
    reviewText := none
    linkHref := none }

/-- A well-formed container: padded title and price texts. -/
def c2Div : ItemDiv :=
  { emptyDiv with titleText := some " Shoes ", priceText := some " $9.99 " }

/-- The item `c2Div` extracts to. -/
def c2Item : ShoppingItem :=
  { title := "Shoes"
    price := "$9.99"
    delivery_price := "N/A"
    review := none
    url := "N/A"
    image_url := none
    saved_image_path := none }

/-- Container whose title selector finds an element with blank text. -/
def c2DivBlankTitle : ItemDiv := { emptyDiv with titleText := some "   " }

/-- Container with a title but no price element at all. -/
def c2DivNoPrice : ItemDiv := { emptyDiv with titleText := some "T" }

/-- Container whose review marker reads "4.5.6" (two decimal points). -/
def c4Div : ItemDiv :=
  { emptyDiv with
    titleText := some "T"
    priceText := some "$5"
    reviewText := some "4.5.6" }

/-- Container whose review marker reads "4.5". -/
def c4Div45 : ItemDiv := { emptyDiv with reviewText := some "4.5" }

/-- Container whose review marker reads "Bestseller". -/
def c4DivBest : ItemDiv := { emptyDiv with reviewText := some "Bestseller" }

/-- The review filter exactly as the claim words it: after trimming, the
text consists solely of digits and at most one decimal point. -/
def specReviewFilter (s : String) : Bool :=
  (s.data.all fun c => c.isDigit || c == '.') && s.data.count '.' ≤ 1 && !s.data.isEmpty

/-- Container whose price element has empty text and whose aria-label is a
currency-prefixed amount that does not mention the word "price". -/
def c5Div : ItemDiv :=
  { emptyDiv with
    titleText := some "T"
    priceText := some ""
    priceAriaLabel := some "₹24.50" }

/-- Container whose price element has empty text and an aria-label of the
shape the code expects (`Current price: ₹24.50`). -/
def c5DivW : ItemDiv :=
  { emptyDiv with
    titleText := some "T"
    priceText := some ""
    priceAriaLabel := some "Current price: ₹24.50" }

/-- Same as `c5Div`: keyword missing, used against the amended claim. -/
def c5DivNoKeyword : ItemDiv :=
  { emptyDiv with
    titleText := some "T"
    priceText := some ""
    priceAriaLabel := some "₹24.50" }

/-- A thumbnail-proxy image candidate. -/
def c6TbnImg : ImgElem :=
  { src := some "https://encrypted-tbn0.gstatic.com/shopping?q=tbn:abc", dataSrc := none }

/-- An inline data-encoded image candidate. -/
def c6DataImg : ImgElem :=
  { src := some "data:image/png;base64,AAA", dataSrc := none }

/-- An excluded-keyword image candidate (favicon). -/
def c6IconImg : ImgElem :=
  { src := some "https://x.example/favicon.ico", dataSrc := none }

/-- Two distinct DOM containers (different element identity) that carry the
same `data-hveid` attribute and extract successfully. -/
def c3ElemA : Elem :=
  { elemId := 1
    hasPriceChild := true
    hveid := some "dup"
    textSnippet := "a"
    div := { emptyDiv with titleText := some "First", priceText := some "$1" } }

/-- Second container with the same `data-hveid` as `c3ElemA`. -/
def c3ElemB : Elem :=
  { elemId := 2
    hasPriceChild := true
    hveid := some "dup"
    textSnippet := "b"
    div := { emptyDiv with titleText := some "Second", priceText := some "$2" } }

/-- Fallback enumeration: each title element sits directly under one of the
duplicate-key containers. -/
def c3Titles : List TitleElem := [⟨[c3ElemA]⟩, ⟨[c3ElemB]⟩]

/-- A scroll environment whose snapshots never show a title element, so the
scroll pass collects nothing and the fallback pass runs. -/
def c3Env : ScrollEnv :=
  { titlesAt := fun _ => []
    scrollDraw := fun _ => 100
    pageHeightAt := fun _ => 100000 }

/-- One valid candidate for the bounded-collection run: a title element
whose parent holds both markers and extracts successfully. -/
def c7Candidate (n : Nat) (nm : String) : TitleElem :=
  ⟨[{ elemId := n
      hasPriceChild := true
      hveid := some nm
      textSnippet := nm
      div := { emptyDiv with titleText := some nm, priceText := some "$1" } }]⟩

/-- Eight valid candidates with pairwise distinct de-dup keys. -/
def c7Titles : List TitleElem :=
  [c7Candidate 1 "P1", c7Candidate 2 "P2", c7Candidate 3 "P3", c7Candidate 4 "P4",
   c7Candidate 5 "P5", c7Candidate 6 "P6", c7Candidate 7 "P7", c7Candidate 8 "P8"]

/-- A page whose first snapshot already shows the eight candidates. -/
def env8 : ScrollEnv :=
  { titlesAt := fun k => if k = 0 then c7Titles else []
    scrollDraw := fun _ => 100
    pageHeightAt := fun _ => 100000 }

/-- An item some attempt could return. -/
def c1Item : ShoppingItem :=
  { title := "T"
    price := "$1"
    delivery_price := "N/A"
    review := none
    url := "N/A"
    image_url := none
    saved_image_path := none }

/-- A run in which navigation fails inside `_click_consent_button` on the
first attempt and every later attempt would succeed with items. -/
def c1Env : Nat → AttemptOutcome := fun k =>
  if k = 0 then .prepareFail .consentFormAcceptError else .items [c1Item]

/-- A manager state holding a live session. -/
def c9Live : ScraperState :=
  { driver := some 7, driverConfig := some { proxy := none, headless := true } }

/-- A manager state with no session and cleared configuration. -/
def c9Closed : ScraperState := { driver := none, driverConfig := none }

theorem currencySearch_ne_nil (cs l : List Char) (h : currencySearch cs = some l) :
    l ≠ [] := by
  induction cs with
  | nil => simp [currencySearch] at h
  | cons c rest ih =>
    rw [currencySearch] at h
    by_cases hc : isCurrencySymbol c = true
    · rw [if_pos hc] at h
      cases hm : matchAmountAfterSymbol rest with
      | some m =>
        rw [hm] at h
        injection h with h
        rw [← h]
        simp
      | none =>
        rw [hm] at h
        exact ih h
    · rw [if_neg hc] at h
      exact ih h

theorem priceRegexSearch_ne_empty (s p : String) (h : priceRegexSearch s = some p) :
    p ≠ "" := by
  unfold priceRegexSearch at h
  cases hc : currencySearch s.data with
  | none => rw [hc] at h; simp at h
  | some l =>
    rw [hc] at h
    injection h with h
    intro hemp
    apply currencySearch_ne_nil s.data l hc
    have hdata : l = p.data := congrArg String.data h
    rw [hdata, hemp]

theorem extractPrice_ne_empty (d : ItemDiv) (p : String) (h : extractPrice d = some p) :
    p ≠ "" := by
  unfold extractPrice at h
  cases hpt : d.priceText with
  | none => simp [hpt] at h
  | some pt =>
    simp only [hpt] at h
    by_cases hs : pyStrip pt = ""
    · rw [if_pos hs] at h
      cases hal : d.priceAriaLabel with
      | none => simp [hal] at h
      | some al =>
        simp only [hal] at h
        by_cases hk : containsSub (pyLower al) "price" = true
        · rw [if_pos hk] at h
          exact priceRegexSearch_ne_empty al p h
        · rw [if_neg hk] at h; simp at h
    · rw [if_neg hs] at h
      injection h with h
      rw [← h]
      exact hs

/-- C2: the Field Extractor returns an Item only if the trimmed title and
the price are both non-empty; an empty-trimming title or an unobtainable
price yields `none`, so no emitted Item has an empty title or price. -/
theorem C2_validation_invariant (d : ItemDiv) :
    (∀ item, getDataFromItemDiv d = some item → item.title ≠ "" ∧ item.price ≠ "") ∧
    (d.titleText = none → getDataFromItemDiv d = none) ∧
    (∀ tt, d.titleText = some tt → pyStrip tt = "" → getDataFromItemDiv d = none) ∧
    (extractPrice d = none → getDataFromItemDiv d = none) := by
  refine ⟨?_, ?_, ?_, ?_⟩
  · intro item h
    unfold getDataFromItemDiv at h
    cases htt : d.titleText with
    | none => simp [htt] at h
    | some tt =>
      simp only [htt] at h
      by_cases hts : pyStrip tt = ""
      · rw [if_pos hts] at h; simp at h
      · rw [if_neg hts] at h
        cases hp : extractPrice d with
        | none => simp [hp] at h
        | some price =>
          simp only [hp] at h
          injection h with h
          rw [← h]
          exact ⟨hts, extractPrice_ne_empty d price hp⟩
  · intro h
    simp [getDataFromItemDiv, h]
  · intro tt h hts
    simp [getDataFromItemDiv, h, hts]
  · intro hp
    unfold getDataFromItemDiv
    cases htt : d.titleText with
    | none => rfl
    | some tt =>
      simp [hp]

theorem C2_witness :
    (c2Item.title ≠ "" ∧ c2Item.price ≠ "") ∧
    getDataFromItemDiv emptyDiv = none ∧
    getDataFromItemDiv c2DivBlankTitle = none ∧
    getDataFromItemDiv c2DivNoPrice = none :=
  ⟨(C2_validation_invariant c2Div).1 c2Item (by decide),
   (C2_validation_invariant emptyDiv).2.1 rfl,
   (C2_validation_invariant c2DivBlankTitle).2.2.1 "   " rfl (by decide),
   (C2_validation_invariant c2DivNoPrice).2.2.2 (by decide)⟩

theorem filter_digit_guard (l : List Char) :
    (¬ l.filter (fun c => c != '.') = [] ∧
      ∀ c ∈ l.filter (fun c => c != '.'), c.isDigit = true) ↔
    ((∃ c ∈ l, c.isDigit = true) ∧ ∀ c ∈ l, c.isDigit = true ∨ c = '.') := by
  constructor
  · rintro ⟨hne, hall⟩
    obtain ⟨c, hc⟩ := List.exists_mem_of_ne_nil _ hne
    have hcl := List.mem_filter.mp hc
    refine ⟨⟨c, hcl.1, hall c hc⟩, ?_⟩
    intro x hx
    by_cases hdot : x = '.'
    · exact Or.inr hdot
    · exact Or.inl (hall x (List.mem_filter.mpr ⟨hx, by simp [hdot]⟩))
  · rintro ⟨⟨c, hcl, hdig⟩, hall⟩
    have hcdot : c ≠ '.' := by
      intro hc
      rw [hc] at hdig
      exact absurd hdig (by decide)
    constructor
    · intro hf
      have hmem : c ∈ l.filter fun c => c != '.' :=
        List.mem_filter.mpr ⟨hcl, by simp [hcdot]⟩
      rw [hf] at hmem
      exact absurd hmem (List.not_mem_nil c)
    · intro x hx
      have hxl := List.mem_filter.mp hx
      rcases hall x hxl.1 with h | h
      · exact h
      · exfalso
        have := hxl.2
        simp [h] at this

theorem pyIsDigit_stripDots (t : String) :
    pyIsDigit (stripDots t) =
      (t.data.any Char.isDigit && t.data.all fun c => c.isDigit || c == '.') := by
  rw [Bool.eq_iff_iff]
  show (!(t.data.filter fun c => c != '.').isEmpty &&
      (t.data.filter fun c => c != '.').all Char.isDigit) = true ↔ _
  rw [Bool.and_eq_true, Bool.and_eq_true, Bool.not_eq_true', List.isEmpty_eq_false,
    List.all_eq_true, List.any_eq_true, List.all_eq_true]
  constructor
  · rintro ⟨hne, hall⟩
    obtain ⟨hd, ha⟩ := (filter_digit_guard t.data).mp ⟨hne, hall⟩
    exact ⟨hd, fun c hc => by rcases ha c hc with h | h <;> simp [h]⟩
  · rintro ⟨hd, ha⟩
    refine (filter_digit_guard t.data).mpr ⟨hd, fun c hc => ?_⟩
    have hcc := ha c hc
    simp only [Bool.or_eq_true, beq_iff_eq] at hcc
    exact hcc

/-- C4 counterexample: the review filter uses
`review_text.replace(".", "").isdigit()`, which deletes every decimal
point, so the text "4.5.6" — which has two decimal points and therefore
must yield `review = null` under the claim — is kept verbatim. -/
theorem C4_counterexample :
    (getDataFromItemDiv c4Div).bind (fun it => it.review) = some "4.5.6" ∧
    specReviewFilter "4.5.6" = false := by decide

/-- C4 amended: the review value is kept (as the trimmed text) exactly when
the trimmed text contains at least one digit and every character of it is a
digit or a decimal point — any number of decimal points is tolerated, not
at most one; otherwise the review is null.  In particular "4.5" is kept and
"Bestseller" is rejected. -/
theorem C4_review_filter (d : ItemDiv) (rt : String) (h : d.reviewText = some rt) :
    extractReview d =
      if (pyStrip rt).data.any Char.isDigit &&
          ((pyStrip rt).data.all fun c => c.isDigit || c == '.') then
        some (pyStrip rt)
      else none := by
  unfold extractReview
  simp only [h]
  by_cases h0 : pyStrip rt = ""
  · rw [if_pos h0, h0]
    have : ("" : String).data.any Char.isDigit = false := by decide
    rw [this]
    simp
  · rw [if_neg h0, pyIsDigit_stripDots]

theorem C4_witness :
    extractReview c4Div45 = some "4.5" ∧ extractReview c4DivBest = none := by
  constructor
  · rw [C4_review_filter c4Div45 "4.5" rfl]
    decide
  · rw [C4_review_filter c4DivBest "Bestseller" rfl]
    decide

/-- C5 counterexample: the aria-label "₹24.50" is non-empty and contains a
currency-symbol-prefixed amount (the regex itself matches it in full), yet
the container is rejected, because the code additionally requires the
substring "price" (case-insensitive) in the aria-label before consulting
the regex. -/
theorem C5_counterexample :
    getDataFromItemDiv c5Div = none ∧
    priceRegexSearch "₹24.50" = some "₹24.50" ∧
    ("₹24.50" : String) ≠ "" := by decide

/-- C5 amended: when the price element's trimmed text is empty, the
fallback parses a currency-symbol-prefixed amount out of the aria-label
only if the aria-label also contains "price" case-insensitively; the
container is rejected when the keyword is missing or when the regex finds
no currency-prefixed amount, even though the text and aria-label are
non-empty. -/
theorem C5_aria_fallback (d : ItemDiv) (tt pt al : String)
    (ht : d.titleText = some tt) (htt : ¬ pyStrip tt = "")
    (hpt : d.priceText = some pt) (hempty : pyStrip pt = "")
    (hal : d.priceAriaLabel = some al) :
    (∀ m, containsSub (pyLower al) "price" = true → priceRegexSearch al = some m →
      getDataFromItemDiv d =
        some
          { title := pyStrip tt
            price := m
            delivery_price := extractDelivery d
            review := extractReview d
            url := extractUrl d
            image_url := chooseImageUrl (imgCandidates d)
            saved_image_path := none }) ∧
    (containsSub (pyLower al) "price" = false → getDataFromItemDiv d = none) ∧
    (priceRegexSearch al = none → getDataFromItemDiv d = none) := by
  have hprice : extractPrice d =
      (if containsSub (pyLower al) "price" = true then priceRegexSearch al else none) := by
    unfold extractPrice
    simp only [hpt, hal, if_pos hempty]
  refine ⟨?_, ?_, ?_⟩
  · intro m hk hm
    unfold getDataFromItemDiv
    simp only [ht, if_neg htt, hprice, if_pos hk, hm]
  · intro hk
    unfold getDataFromItemDiv
    simp only [ht, if_neg htt, hprice, hk]
    simp
  · intro hm
    unfold getDataFromItemDiv
    simp only [ht, if_neg htt, hprice, hm]
    simp

theorem C5_witness :
    getDataFromItemDiv c5DivW =
      some
        { title := pyStrip "T"
          price := "₹24.50"
          delivery_price := extractDelivery c5DivW
          review := extractReview c5DivW
          url := extractUrl c5DivW
          image_url := chooseImageUrl (imgCandidates c5DivW)
          saved_image_path := none } ∧
    getDataFromItemDiv c5DivNoKeyword = none :=
  ⟨(C5_aria_fallback c5DivW "T" "" "Current price: ₹24.50" rfl (by decide) rfl
      (by decide) rfl).1 "₹24.50" (by decide) (by decide),
   (C5_aria_fallback c5DivNoKeyword "T" "" "₹24.50" rfl (by decide) rfl
      (by decide) rfl).2.1 (by decide)⟩

/-- C6: the image URL is chosen by the ordered priority chain — (1) first
inline data-encoded source, (2) first thumbnail-proxy source that also
carries the shopping query-parameter marker, (3) first thumbnail-proxy
source including the lazy-load data-src attribute, (4) first other absolute
HTTP source with no favicon/icon/logo keyword — first match wins, each
later rule consulted only when every earlier rule found nothing; with one
inline-data and one thumbnail-proxy candidate the inline-data source is
chosen even when listed second, and the result is null when no rule
matches. -/
theorem C6_image_priority :
    (∀ imgs i, imgs.find? srcIsData = some i → chooseImageUrl imgs = i.src) ∧
    (∀ imgs i, imgs.find? srcIsData = none →
      imgs.find? srcIsEncryptedShopping = some i → chooseImageUrl imgs = i.src) ∧
    (∀ imgs s, imgs.find? srcIsData = none →
      imgs.find? srcIsEncryptedShopping = none → findTbn imgs = some s →
      chooseImageUrl imgs = some s) ∧
    (∀ imgs i, imgs.find? srcIsData = none →
      imgs.find? srcIsEncryptedShopping = none → findTbn imgs = none →
      imgs.find? srcIsHttpNonIcon = some i → chooseImageUrl imgs = i.src) ∧
    (∀ imgs, imgs.find? srcIsData = none →
      imgs.find? srcIsEncryptedShopping = none → findTbn imgs = none →
      imgs.find? srcIsHttpNonIcon = none → chooseImageUrl imgs = none) ∧
    chooseImageUrl [c6TbnImg, c6DataImg] = some "data:image/png;base64,AAA" := by
  refine ⟨?_, ?_, ?_, ?_, ?_, by decide⟩
  · intro imgs i h1
    unfold chooseImageUrl
    simp only [h1]
  · intro imgs i h1 h2
    unfold chooseImageUrl
    simp only [h1, h2]
  · intro imgs s h1 h2 h3
    unfold chooseImageUrl
    simp only [h1, h2, h3]
  · intro imgs i h1 h2 h3 h4
    unfold chooseImageUrl
    simp only [h1, h2, h3, h4]
  · intro imgs h1 h2 h3 h4
    unfold chooseImageUrl
    simp only [h1, h2, h3, h4]

theorem C6_witness :
    chooseImageUrl [c6TbnImg, c6DataImg] = c6DataImg.src ∧
    chooseImageUrl [c6IconImg] = none :=
  ⟨C6_image_priority.1 [c6TbnImg, c6DataImg] c6DataImg (by decide),
   C6_image_priority.2.2.2.2.1 [c6IconImg] (by decide) (by decide) (by decide)
     (by decide)⟩

theorem collectedKeys_append (hashFn : String → String) (acc : List Collected)
    (x : Collected) :
    collectedKeys hashFn (acc ++ [x]) =
      collectedKeys hashFn acc ++ [containerKey hashFn x.container] := by
  simp [collectedKeys]

theorem processTitles_keys_nodup (hashFn : String → String) (titles : List TitleElem)
    (acc : List Collected) (h : (collectedKeys hashFn acc).Nodup) :
    (collectedKeys hashFn (processTitles hashFn titles acc)).Nodup := by
  induction titles generalizing acc with
  | nil => exact h
  | cons t rest ih =>
    by_cases h5 : 5 ≤ acc.length
    · simp only [processTitles, h5, if_true]; exact h
    · cases hres : resolveContainer t with
      | none =>
        simp only [processTitles, h5, if_false, hres]
        exact ih acc h
      | some c =>
        by_cases hmem : containerKey hashFn c ∈ collectedKeys hashFn acc
        · simp only [processTitles, h5, if_false, hres, hmem, if_true]
          exact ih acc h
        · cases hext : getDataFromItemDiv c.div with
          | none =>
            simp only [processTitles, h5, if_false, hres, hmem, hext]
            exact ih acc h
          | some it =>
            simp only [processTitles, h5, if_false, hres, hmem, hext]
            apply ih
            rw [collectedKeys_append]
            simp [List.nodup_append, h, hmem]

theorem scrollLoop_keys_nodup (env : ScrollEnv) (hashFn : String → String)
    (fuel k pos : Nat) (acc : List Collected)
    (h : (collectedKeys hashFn acc).Nodup) :
    (collectedKeys hashFn (scrollLoop env hashFn fuel k pos acc)).Nodup := by
  induction fuel generalizing k pos acc with
  | zero => exact h
  | succ n ih =>
    simp only [scrollLoop]
    split
    · exact h
    · split
      · exact processTitles_keys_nodup hashFn _ acc h
      · split
        · exact processTitles_keys_nodup hashFn _ acc h
        · exact ih _ _ _ (processTitles_keys_nodup hashFn _ acc h)

/-- C3 counterexample: a run in which the scroll pass collects nothing and
the fallback pass collects two distinct containers that carry the same
`data-hveid` attribute returns two items whose de-dup keys coincide — the
fallback pass performs no key-based de-duplication. -/
theorem C3_counterexample :
    collectedKeys (fun s => s) (getItemsForQuery c3Env (fun s => s) c3Titles) =
      ["dup", "dup"] ∧
    ¬ (collectedKeys (fun s => s)
        (getItemsForQuery c3Env (fun s => s) c3Titles)).Nodup := by decide

/-- C3 amended: no two items collected by the scroll pass share a de-dup
key, and whenever the scroll pass collects at least one item (so the
fallback pass does not run) the full Incremental Collector result satisfies
the invariant; the fallback pass itself computes no de-dup keys and may
return duplicates. -/
theorem C3_scroll_pass_dedup (env : ScrollEnv) (hashFn : String → String)
    (fb : List TitleElem) :
    (collectedKeys hashFn (smartScrollAndExtract env hashFn)).Nodup ∧
    ((smartScrollAndExtract env hashFn).isEmpty = false →
      (collectedKeys hashFn (getItemsForQuery env hashFn fb)).Nodup) := by
  have hmain : (collectedKeys hashFn (smartScrollAndExtract env hashFn)).Nodup :=
    scrollLoop_keys_nodup env hashFn 10 0 0 [] (by simp [collectedKeys])
  refine ⟨hmain, ?_⟩
  intro hne
  simp only [getItemsForQuery, hne, if_false]
  exact hmain

theorem C3_witness :
    (collectedKeys (fun s => s) (smartScrollAndExtract env8 (fun s => s))).Nodup ∧
    (collectedKeys (fun s => s) (getItemsForQuery env8 (fun s => s) [])).Nodup :=
  ⟨(C3_scroll_pass_dedup env8 (fun s => s) []).1,
   (C3_scroll_pass_dedup env8 (fun s => s) []).2 (by decide)⟩

theorem processTitles_length_le (hashFn : String → String) (titles : List TitleElem)
    (acc : List Collected) (h : acc.length ≤ 5) :
    (processTitles hashFn titles acc).length ≤ 5 := by
  induction titles generalizing acc with
  | nil => exact h
  | cons t rest ih =>
    by_cases h5 : 5 ≤ acc.length
    · simp only [processTitles, h5, if_true]; exact h
    · cases hres : resolveContainer t with
      | none =>
        simp only [processTitles, h5, if_false, hres]
        exact ih acc h
      | some c =>
        by_cases hmem : containerKey hashFn c ∈ collectedKeys hashFn acc
        · simp only [processTitles, h5, if_false, hres, hmem, if_true]
          exact ih acc h
        · cases hext : getDataFromItemDiv c.div with
          | none =>
            simp only [processTitles, h5, if_false, hres, hmem, hext]
            exact ih acc h
          | some it =>
            simp only [processTitles, h5, if_false, hres, hmem, hext]
            apply ih
            simp only [List.length_append, List.length_singleton]
            omega

theorem scrollLoop_length_le (env : ScrollEnv) (hashFn : String → String)
    (fuel k pos : Nat) (acc : List Collected) (h : acc.length ≤ 5) :
    (scrollLoop env hashFn fuel k pos acc).length ≤ 5 := by
  induction fuel generalizing k pos acc with
  | zero => exact h
  | succ n ih =>
    simp only [scrollLoop]
    split
    · exact h
    · split
      · exact processTitles_length_le hashFn _ acc h
      · split
        · exact processTitles_length_le hashFn _ acc h
        · exact ih _ _ _ (processTitles_length_le hashFn _ acc h)

theorem fallbackExtract_length_le (cs : List Elem) (acc : List Collected)
    (h : acc.length ≤ 4) : (fallbackExtract cs acc).length ≤ 5 := by
  induction cs generalizing acc with
  | nil => exact Nat.le_trans h (by omega)
  | cons c rest ih =>
    cases hext : getDataFromItemDiv c.div with
    | none =>
      simp only [fallbackExtract, hext]
      rw [if_neg (by omega)]
      exact ih acc h
    | some it =>
      simp only [fallbackExtract, hext]
      by_cases h5 : 5 ≤ (acc ++ [Collected.mk c it]).length
      · rw [if_pos h5]
        simp only [List.length_append, List.length_singleton]
        omega
      · rw [if_neg h5]
        apply ih
        simp only [List.length_append, List.length_singleton] at h5 ⊢
        omega

theorem getItemsForQuery_length_le (env : ScrollEnv) (hashFn : String → String)
    (fb : List TitleElem) : (getItemsForQuery env hashFn fb).length ≤ 5 := by
  by_cases hemp : (smartScrollAndExtract env hashFn).isEmpty = true
  · simp only [getItemsForQuery, hemp, if_true]
    exact fallbackExtract_length_le _ [] (by decide)
  · simp only [getItemsForQuery, hemp, if_false]
    exact scrollLoop_length_le env hashFn 10 0 0 [] (by decide)

theorem processTitles_append_only (hashFn : String → String) (titles : List TitleElem)
    (acc : List Collected) : ∃ l, processTitles hashFn titles acc = acc ++ l := by
  induction titles generalizing acc with
  | nil => exact ⟨[], (List.append_nil acc).symm⟩
  | cons t rest ih =>
    by_cases h5 : 5 ≤ acc.length
    · simp only [processTitles, h5, if_true]
      exact ⟨[], (List.append_nil acc).symm⟩
    · cases hres : resolveContainer t with
      | none =>
        simp only [processTitles, h5, if_false, hres]
        exact ih acc
      | some c =>
        by_cases hmem : containerKey hashFn c ∈ collectedKeys hashFn acc
        · simp only [processTitles, h5, if_false, hres, hmem, if_true]
          exact ih acc
        · cases hext : getDataFromItemDiv c.div with
          | none =>
            simp only [processTitles, h5, if_false, hres, hmem, hext]
            exact ih acc
          | some it =>
            simp only [processTitles, h5, if_false, hres, hmem, hext]
            obtain ⟨l, hl⟩ := ih (acc ++ [⟨c, it⟩])
            exact ⟨⟨c, it⟩ :: l, by rw [hl]; simp⟩

theorem scrollLoop_append_only (env : ScrollEnv) (hashFn : String → String)
    (fuel k pos : Nat) (acc : List Collected) :
    ∃ l, scrollLoop env hashFn fuel k pos acc = acc ++ l := by
  induction fuel generalizing k pos acc with
  | zero => exact ⟨[], (List.append_nil acc).symm⟩
  | succ n ih =>
    simp only [scrollLoop]
    by_cases h5 : 5 ≤ acc.length
    · rw [if_pos h5]; exact ⟨[], (List.append_nil acc).symm⟩
    · rw [if_neg h5]
      obtain ⟨l1, hl1⟩ := processTitles_append_only hashFn (env.titlesAt k) acc
      by_cases h5b : 5 ≤ (processTitles hashFn (env.titlesAt k) acc).length
      · rw [if_pos h5b]; exact ⟨l1, hl1⟩
      · rw [if_neg h5b]
        by_cases hbot : env.pageHeightAt k ≤ pos + env.scrollDraw k
        · rw [if_pos hbot]; exact ⟨l1, hl1⟩
        · rw [if_neg hbot]
          obtain ⟨l2, hl2⟩ :=
            ih (k + 1) (pos + env.scrollDraw k) (processTitles hashFn (env.titlesAt k) acc)
          exact ⟨l1 ++ l2, by rw [hl2, hl1, List.append_assoc]⟩

/-- C7: every Incremental Collector run returns at most 5 items (both the
scroll pass and the fallback pass stop at 5); collection is append-only, so
items stay in the order first collected; and the eight-valid-candidate page
`env8` yields exactly the first five candidates in encountered order. -/
theorem C7_bound_and_order :
    (∀ (env : ScrollEnv) (hashFn : String → String) (fb : List TitleElem),
      (getItemsForQuery env hashFn fb).length ≤ 5) ∧
    (∀ (env : ScrollEnv) (hashFn : String → String) (fuel k pos : Nat)
      (acc : List Collected), ∃ l, scrollLoop env hashFn fuel k pos acc = acc ++ l) ∧
    (getItemsForQuery env8 (fun s => s) []).map (fun col => col.item.title) =
      ["P1", "P2", "P3", "P4", "P5"] :=
  ⟨fun env hashFn fb => getItemsForQuery_length_le env hashFn fb,
   fun env hashFn fuel k pos acc => scrollLoop_append_only env hashFn fuel k pos acc,
   by decide⟩

theorem C7_witness : (getItemsForQuery c3Env (fun s => s) c3Titles).length ≤ 5 :=
  C7_bound_and_order.1 c3Env (fun s => s) c3Titles

/-- C1 counterexample: with three attempts allowed, a `ConsentFormAcceptError`
raised during Prepare on the first attempt is not retried — the run stops
after exactly one attempt and surfaces `ConsentFormAcceptError` itself to
the caller, not the generic `DriverGetShoppingDataError` or
`DriverInitializationError`, even though the remaining attempts would have
succeeded. -/
theorem C1_counterexample :
    getShoppingDataForQuery c1Env 3 = (.error .consentFormAcceptError, 1) ∧
    (getShoppingDataForQuery c1Env 3).1 ≠ .error .driverGetShoppingDataError ∧
    (getShoppingDataForQuery c1Env 3).1 ≠ .error .driverInitializationError ∧
    (getShoppingDataForQuery c1Env 3).2 ≠ 3 := by
  have hrun : getShoppingDataForQuery c1Env 3 = (.error .consentFormAcceptError, 1) := rfl
  refine ⟨hrun, ?_, ?_, ?_⟩ <;> rw [hrun] <;> simp

/-- C1 amended: a `ConsentFormAcceptError` raised during the Prepare state
is never retried: it derives from `BaseException` while both retry handlers
catch only `Exception`, so it propagates immediately to the caller as a
distinct `ConsentFormAcceptError` on the attempt where it occurs, however
many attempts remain. -/
theorem C1_consent_error_escapes (rest : List AttemptOutcome) :
    runAttempts (.prepareFail .consentFormAcceptError :: rest) =
      (.error .consentFormAcceptError, 1) := rfl

theorem C1_witness :
    runAttempts [.prepareFail .consentFormAcceptError] =
      (.error .consentFormAcceptError, 1) :=
  C1_consent_error_escapes []

theorem runAttempts_allAcquireFail (e : Exc) (he : e.isExceptionSubclass = true)
    (hn : e.nameHasDriverInit = false) :
    ∀ l : List AttemptOutcome, l ≠ [] → (∀ o ∈ l, o = .acquireFail e) →
      runAttempts l = (.error .driverInitializationError, l.length) := by
  intro l
  induction l with
  | nil => intro hne; exact absurd rfl hne
  | cons o rest ih =>
    intro _ hall
    have ho : o = .acquireFail e := hall o (List.mem_cons_self o rest)
    subst ho
    cases rest with
    | nil => simp [runAttempts, he, hn]
    | cons o2 rest2 =>
      have hrec := ih (by simp) fun x hx => hall x (List.mem_cons_of_mem _ hx)
      simp only [runAttempts] at hrec ⊢
      simp only [he, if_true]
      rw [hrec]
      simp

/-- C8: when session acquisition raises a plain `Exception` on every
attempt, the run raises `DriverInitializationError` after executing exactly
`maxRetries` attempts, returning no items. -/
theorem C8_retry_exhaustion (env : Nat → AttemptOutcome) (maxRetries : Nat) (e : Exc)
    (hpos : 1 ≤ maxRetries)
    (henv : ∀ k, k < maxRetries → env k = .acquireFail e)
    (he : e.isExceptionSubclass = true) (hn : e.nameHasDriverInit = false) :
    getShoppingDataForQuery env maxRetries = (.error .driverInitializationError, maxRetries) := by
  unfold getShoppingDataForQuery
  have hne : (List.range maxRetries).map env ≠ [] := by
    simp only [ne_eq, List.map_eq_nil_iff, List.range_eq_nil]
    omega
  have hall : ∀ o ∈ (List.range maxRetries).map env, o = .acquireFail e := by
    intro o ho
    obtain ⟨k, hk, rfl⟩ := List.mem_map.mp ho
    exact henv k (List.mem_range.mp hk)
  rw [runAttempts_allAcquireFail e he hn _ hne hall]
  simp

theorem C8_witness :
    getShoppingDataForQuery (fun _ => .acquireFail (.otherException false)) 3 =
      (.error .driverInitializationError, 3) :=
  C8_retry_exhaustion (fun _ => .acquireFail (.otherException false)) 3
    (.otherException false) (by decide) (fun k _ => rfl) rfl rfl

/-- C10: with `max_retries = 0` the attempt loop body never executes — no
delay, no session acquisition — and the unconditional post-loop raise
surfaces `DriverGetShoppingDataError`, never `DriverInitializationError`. -/
theorem C10_zero_retries (env : Nat → AttemptOutcome) :
    getShoppingDataForQuery env 0 = (.error .driverGetShoppingDataError, 0) ∧
    (getShoppingDataForQuery env 0).1 ≠ .error .driverInitializationError := by
  have hrun : getShoppingDataForQuery env 0 = (.error .driverGetShoppingDataError, 0) := rfl
  refine ⟨hrun, ?_⟩
  rw [hrun]
  simp

theorem C10_witness :
    getShoppingDataForQuery (fun _ => .items []) 0 =
      (.error .driverGetShoppingDataError, 0) :=
  (C10_zero_retries (fun _ => .items [])).1

/-- C9: `close_browser` is idempotent — a second call, or a call with no
session present, is a no-op; when a session is present, any `quit()` error
is swallowed and the manager always ends with no driver and an empty
configuration fingerprint. -/
theorem C9_close_idempotent (q q2 : Bool) (s : ScraperState) :
    closeBrowser q2 (closeBrowser q s) = closeBrowser q s ∧
    (s.driver = none → closeBrowser q s = s) ∧
    (∀ d, s.driver = some d →
      (closeBrowser q s).driver = none ∧ (closeBrowser q s).driverConfig = none) := by
  refine ⟨?_, ?_, ?_⟩
  · cases hd : s.driver <;> simp [closeBrowser, hd]
  · intro h; simp [closeBrowser, h]
  · intro d h; simp [closeBrowser, h]

theorem C9_witness :
    closeBrowser false (closeBrowser true c9Live) = closeBrowser true c9Live ∧
    closeBrowser true c9Closed = c9Closed ∧
    (closeBrowser true c9Live).driver = none ∧
    (closeBrowser true c9Live).driverConfig = none :=
  ⟨(C9_close_idempotent true false c9Live).1,
   (C9_close_idempotent true true c9Closed).2.1 rfl,
   ((C9_close_idempotent true true c9Live).2.2 7 rfl).1,
   ((C9_close_idempotent true true c9Live).2.2 7 rfl).2⟩

end GoogleShopping
